import Mathlib

/-!
Shallow embedding of the chat orchestration state machine of
`src/spa_foundry_agent_webapp/src/App.js` (the React single-page app that
drives a Foundry agent conversation with MCP approval gating and OAuth
consent detours).

Modelling conventions:
* React `useState` fields relevant to the conversation are gathered into one
  `AppState` record; each setter call becomes a record update.
* JavaScript `x || null` on a string-valued field (`undefined`/`null`/`""`
  are falsy) is `jsOrNull`; `!!obj[k]` on the decision map is `decisionFor`;
  `String.prototype.trim()` is `jsTrim` (implemented on the character list so
  that it reduces in the kernel).
* The asynchronous shape of `sendMessage` / `submitApprovals` /
  `resumeAfterOauthConsent` is split into a `...Start` function (everything
  before `await postChat`, returning the request body it posts, if any) and
  `finishTurn` (the continuation: `applyChatResponse` on success, `setError`
  on failure, then `setChatLoading(false)`).  The transport outcome of
  `postChat` is abstracted as `PostOutcome`.
* UI-level guards from the JSX (the chat input / Send button `disabled`
  condition and the `New chat` button `disabled` condition) are modelled as
  `chatInputDisabled`, `sendMessageUI` and `resetChatUI`.
-/

namespace FoundryChat

/-- Role of a chat transcript entry (`role: "user" | "assistant"`). -/
inductive Role
  | user
  | assistant
deriving DecidableEq, Repr

/-- One transcript entry: `{ role, text }` (App.js `messages` items). -/
structure Message where
  role : Role
  text : String
deriving DecidableEq, Repr

/-- One MCP approval request `{id, server_label, tool_name, arguments}`.
The `arguments` payload is only ever rendered, never inspected, so it is
kept as an opaque string. -/
structure ApprovalRequest where
  id : String
  server_label : String
  tool_name : String
  arguments : String
deriving DecidableEq, Repr

/-- A decision entry sent on approval submission:
`{ approval_request_id, approve }`. -/
structure ApprovalEntry where
  approval_request_id : String
  approve : Bool
deriving DecidableEq, Repr

/-- Response body of `POST /chat` as consumed by `applyChatResponse`.
Fields the server may omit are `Option`s. -/
structure ChatResponse where
  status : Option String
  consent_link : Option String
  response_id : Option String
  approval_requests : Option (List ApprovalRequest)
  output_text : Option String
deriving DecidableEq, Repr

/-- Request body posted to `POST /chat` (union of the three senders'
payload shapes). -/
structure ChatRequest where
  agent_name : String
  message : Option String
  previous_response_id : Option String
  action : Option String
  approvals : Option (List ApprovalEntry)
deriving DecidableEq, Repr

/-- JavaScript `x || null` for a string-valued field: `undefined`, `null`
and `""` collapse to `null`. -/
def jsOrNull : Option String → Option String
  | none => none
  | some s => if s = "" then none else some s

/-- JavaScript truthiness of a nullable string (`!x` is `!jsTruthy x`). -/
def jsTruthy : Option String → Bool
  | none => false
  | some s => s ≠ ""

/-- Lookup in the `approvalDecisions` object, first binding wins. -/
def lookupDecision : List (String × Bool) → String → Option Bool
  | [], _ => none
  | (k, v) :: rest, i => if k = i then some v else lookupDecision rest i

/-- JavaScript `!!approvalDecisions[id]`: an absent key reads as `false`. -/
def decisionFor (d : List (String × Bool)) (i : String) : Bool :=
  (lookupDecision d i).getD false

/-- JavaScript `String.prototype.trim()`, on the character list so it
computes by `rfl`/`decide`. -/
def jsTrim (s : String) : String :=
  String.mk (((s.data.dropWhile Char.isWhitespace).reverse.dropWhile
    Char.isWhitespace).reverse)

/-- The conversation-relevant React state of `App` (one field per
`useState` hook used by the chat orchestration; the `chatInput` text box is
passed to `sendMessage` as an argument instead). -/
structure AppState where
  agentName : String
  messages : List Message
  previousResponseId : Option String
  pendingApprovals : Option (List ApprovalRequest)
  approvalDecisions : List (String × Bool)
  pendingResponseIdForApproval : Option String
  oauthConsentLink : Option String
  pendingResponseIdForOauth : Option String
  error : Option String
  chatLoading : Bool
  needsConsent : Bool
deriving DecidableEq, Repr

/-- Initial chat state: empty transcript, null chain token, nothing
pending, not loading. -/
def initialState (agent : String) : AppState :=
  { agentName := agent
    messages := []
    previousResponseId := none
    pendingApprovals := none
    approvalDecisions := []
    pendingResponseIdForApproval := none
    oauthConsentLink := none
    pendingResponseIdForOauth := none
    error := none
    chatLoading := false
    needsConsent := false }

/-- The explanatory assistant message appended when OAuth consent is
required (verbatim from App.js). -/
def consentInstructionText : String :=
  "OAuth consent required to access the MCP tools. Open the consent link below, complete sign-in, then click “I completed sign-in”."

/-- Final-output text rendering: `data.output_text || ""` then
`out || "(no output_text)"`. -/
def finalOutputText (data : ChatResponse) : String :=
  let out := data.output_text.getD ""
  if out = "" then "(no output_text)" else out

/-- `applyChatResponse(data)` from App.js: classify the `/chat` response
and mutate the session.  Branch 1: `data.status === "oauth_consent_required"`;
branch 2: `data.status === "approval_required"`; branch 3: final output. -/
def applyChatResponse (s : AppState) (data : ChatResponse) : AppState :=
  if data.status = some "oauth_consent_required" then
    { s with
      oauthConsentLink := jsOrNull data.consent_link
      pendingResponseIdForOauth := jsOrNull data.response_id
      previousResponseId := jsOrNull data.response_id
      messages := s.messages ++ [⟨Role.assistant, consentInstructionText⟩] }
  else if data.status = some "approval_required" then
    let batch := data.approval_requests.getD []
    { s with
      pendingApprovals := some batch
      pendingResponseIdForApproval := jsOrNull data.response_id
      previousResponseId := jsOrNull data.response_id
      approvalDecisions := batch.map (fun r => (r.id, false)) }
  else
    { s with
      messages := s.messages ++ [⟨Role.assistant, finalOutputText data⟩]
      previousResponseId := jsOrNull data.response_id
      pendingApprovals := none
      pendingResponseIdForApproval := none
      approvalDecisions := []
      oauthConsentLink := none
      pendingResponseIdForOauth := none }

/-- Outcome of one `postChat` exchange: a parsed response body, or the
error string of a transport/application/credential failure. -/
inductive PostOutcome
  | success (data : ChatResponse)
  | failure (err : String)
deriving DecidableEq, Repr

/-- The common continuation of the three senders after `await postChat`:
on success run `applyChatResponse`; on failure `throw new Error(err ||
fallback)` is caught and stored via `setError`; `finally` clears
`chatLoading`. -/
def finishTurn (s : AppState) (fallback : String) (o : PostOutcome) : AppState :=
  match o with
  | .success data => { applyChatResponse s data with chatLoading := false }
  | .failure err =>
      { s with error := some (if err = "" then fallback else err)
               chatLoading := false }

/-- `sendMessage` up to the `await`: guard `if (!text || chatLoading)
return;`, then `setError(null)`, `setChatLoading(true)`, append the user
message, and post `{agent_name, message, previous_response_id}`.  Returns
the posted body, or `none` when the guard fired. -/
def sendMessageStart (s : AppState) (input : String) :
    AppState × Option ChatRequest :=
  let text := jsTrim input
  if text = "" || s.chatLoading then (s, none)
  else
    ({ s with
        error := none
        chatLoading := true
        messages := s.messages ++ [⟨Role.user, text⟩] },
     some { agent_name := s.agentName
            message := some text
            previous_response_id := s.previousResponseId
            action := none
            approvals := none })

/-- `sendMessage` as one atomic step (no interleaving between the post and
its continuation): start, then finish with the given transport outcome. -/
def sendMessage (s : AppState) (input : String) (o : PostOutcome) :
    AppState × Option ChatRequest :=
  match sendMessageStart s input with
  | (s1, none) => (s1, none)
  | (s1, some req) => (finishTurn s1 "Chat request failed" o, some req)

/-- `resumeAfterOauthConsent` up to the `await`: guard
`if (!pendingResponseIdForOauth || chatLoading) return;`, then post
`{agent_name, previous_response_id, action: "continue"}`. -/
def resumeAfterOauthConsentStart (s : AppState) :
    AppState × Option ChatRequest :=
  if !jsTruthy s.pendingResponseIdForOauth || s.chatLoading then (s, none)
  else
    ({ s with error := none, chatLoading := true },
     some { agent_name := s.agentName
            message := none
            previous_response_id := s.pendingResponseIdForOauth
            action := some "continue"
            approvals := none })

/-- `resumeAfterOauthConsent` as one atomic step. -/
def resumeAfterOauthConsent (s : AppState) (o : PostOutcome) :
    AppState × Option ChatRequest :=
  match resumeAfterOauthConsentStart s with
  | (s1, none) => (s1, none)
  | (s1, some req) =>
      (finishTurn s1 "Continue after OAuth consent failed" o, some req)

/-- `submitApprovals` up to the `await`: guard `if (!pendingApprovals?.length
|| !pendingResponseIdForApproval || chatLoading) return;`, then post
`{agent_name, previous_response_id, approvals}` with one
`{approval_request_id, approve: !!approvalDecisions[r.id]}` entry per batch
item. -/
def submitApprovalsStart (s : AppState) : AppState × Option ChatRequest :=
  let batch := s.pendingApprovals.getD []
  if batch.isEmpty || !jsTruthy s.pendingResponseIdForApproval ||
      s.chatLoading then (s, none)
  else
    ({ s with error := none, chatLoading := true },
     some { agent_name := s.agentName
            message := none
            previous_response_id := s.pendingResponseIdForApproval
            action := none
            approvals := some (batch.map
              (fun r => ⟨r.id, decisionFor s.approvalDecisions r.id⟩)) })

/-- `submitApprovals` as one atomic step. -/
def submitApprovals (s : AppState) (o : PostOutcome) :
    AppState × Option ChatRequest :=
  match submitApprovalsStart s with
  | (s1, none) => (s1, none)
  | (s1, some req) => (finishTurn s1 "Approval submit failed" o, some req)

/-- `resetChat` from App.js: clears transcript, chain token, every pending
approval/consent field and the error.  It does not touch `chatLoading`,
`needsConsent` or `agentName`. -/
def resetChat (s : AppState) : AppState :=
  { s with
    messages := []
    previousResponseId := none
    pendingApprovals := none
    approvalDecisions := []
    pendingResponseIdForApproval := none
    oauthConsentLink := none
    pendingResponseIdForOauth := none
    error := none }

/-- The `New chat` button carries `disabled={chatLoading}`, so through the
UI `resetChat` only runs while no request is in flight. -/
def resetChatUI (s : AppState) : AppState :=
  if s.chatLoading then s else resetChat s

/-- The chat text box and Send button `disabled` condition:
`chatLoading || needsConsent || !!oauthConsentLink`.  Note it does not
mention `pendingApprovals`. -/
def chatInputDisabled (s : AppState) : Bool :=
  s.chatLoading || s.needsConsent || s.oauthConsentLink.isSome

/-- `sendMessage` as reachable through the UI: the input row rejects the
submission outright while `chatInputDisabled` holds. -/
def sendMessageUI (s : AppState) (input : String) (o : PostOutcome) :
    AppState × Option ChatRequest :=
  if chatInputDisabled s then (s, none) else sendMessage s input o

/-! Concrete scenario data used by the counterexamples and witnesses. -/

/-- Fresh session for the default agent. -/
def s0 : AppState := initialState "MultiToolAgentV1"

/-- A sample MCP approval request. -/
def aprItem : ApprovalRequest := ⟨"apr-1", "jira", "jira_search", "query"⟩

/-- A second sample MCP approval request. -/
def aprItem2 : ApprovalRequest := ⟨"apr-2", "jira", "jira_create", "args"⟩

/-- Server reply demanding approval of `aprItem`. -/
def approvalResp : ChatResponse :=
  { status := some "approval_required", consent_link := none,
    response_id := some "resp-a", approval_requests := some [aprItem],
    output_text := none }

/-- Server reply demanding OAuth consent. -/
def consentResp : ChatResponse :=
  { status := some "oauth_consent_required",
    consent_link := some "https://consent.example/x",
    response_id := some "resp-b", approval_requests := none,
    output_text := none }

/-- Session after the first user message was answered with an approval
batch: `pendingApprovals = some [aprItem]`, no consent link, not loading. -/
def sAfterBatch : AppState :=
  (sendMessage s0 "What are my open issues?" (.success approvalResp)).1

/-- Session after submitting that batch and receiving a consent-required
reply: the consent link is set while the approval batch is still stored. -/
def sBoth : AppState := (submitApprovals sAfterBatch (.success consentResp)).1

/-- Session holding a chain token, used to exhibit the token reset. -/
def c1_state : AppState := { s0 with previousResponseId := some "resp-1" }

/-- Final-output reply that carries no `response_id`. -/
def c1_resp : ChatResponse :=
  { status := none, consent_link := none, response_id := none,
    approval_requests := none, output_text := some "done" }

/-- C1 (counterexample): a final-output response carrying no response
identifier does NOT leave the stored ChainToken at its prior value — from
`previousResponseId = some "resp-1"` it is reset to `none`, because every
branch of `applyChatResponse` executes
`setPreviousResponseId(data.response_id || null)`. -/
theorem c1_counterexample :
    c1_state.previousResponseId = some "resp-1" ∧
    c1_resp.response_id = none ∧
    (applyChatResponse c1_state c1_resp).previousResponseId = none :=
  ⟨rfl, rfl, rfl⟩

/-- C1 (amended): every branch of `applyChatResponse` overwrites the
stored ChainToken with `data.response_id || null`: when the response
carries a non-empty identifier the token becomes exactly that value, and
when the identifier is absent (or empty) the token is reset to `null`,
not left at its prior value. -/
theorem c1_chainToken_always_overwritten (s : AppState) (data : ChatResponse) :
    (applyChatResponse s data).previousResponseId = jsOrNull data.response_id := by
  unfold applyChatResponse
  split
  · rfl
  · split
    · rfl
    · rfl

/-- C2 (counterexample): starting from the initial session, a user message
answered by an approval batch followed by an approval submission answered
by a consent-required reply leaves BOTH blocking modes active at once:
the consent link is set while the pending approval batch is still stored
(the consent branch never clears `pendingApprovals`). -/
theorem c2_counterexample :
    sBoth.oauthConsentLink = some "https://consent.example/x" ∧
    sBoth.pendingApprovals = some [aprItem] :=
  ⟨rfl, rfl⟩

/-- C2 (amended): a single server response applied from a state in which
neither blocking mode is active activates at most one of them (the
classification takes exactly one branch); the two modes can however
coexist across responses, as `c2_counterexample` shows. -/
theorem c2_single_response_at_most_one_blocking (s : AppState)
    (data : ChatResponse) (h1 : s.oauthConsentLink = none)
    (h2 : s.pendingApprovals.getD [] = []) :
    ¬((applyChatResponse s data).oauthConsentLink ≠ none ∧
      (applyChatResponse s data).pendingApprovals.getD [] ≠ []) := by
  unfold applyChatResponse
  split
  · rintro ⟨-, hB⟩
    exact hB h2
  · split
    · rintro ⟨hA, -⟩
      exact hA h1
    · rintro ⟨hA, -⟩
      exact hA rfl

/-- C2 (witness): the amended theorem applied to the initial session and
the approval-required reply. -/
theorem c2_witness :
    ¬((applyChatResponse s0 approvalResp).oauthConsentLink ≠ none ∧
      (applyChatResponse s0 approvalResp).pendingApprovals.getD [] ≠ []) :=
  c2_single_response_at_most_one_blocking s0 approvalResp rfl rfl

/-- C3 (counterexample): with an approval batch pending (and no consent
link), submitting a new chat message is NOT rejected: the chat input
`disabled` condition ignores `pendingApprovals`, so `sendMessageUI`
appends the user message and posts a request. -/
theorem c3_counterexample :
    sAfterBatch.pendingApprovals = some [aprItem] ∧
    sAfterBatch.oauthConsentLink = none ∧
    (sendMessageUI sAfterBatch "another question" (.failure "net down")).2 =
      some { agent_name := "MultiToolAgentV1"
             message := some "another question"
             previous_response_id := some "resp-a"
             action := none
             approvals := none } ∧
    (sendMessageUI sAfterBatch "another question" (.failure "net down")).1.messages =
      sAfterBatch.messages ++ [⟨Role.user, "another question"⟩] :=
  ⟨rfl, rfl, rfl, rfl⟩

/-- C3 (amended): chat submission is rejected outright (state unchanged,
nothing posted) whenever the ConsentLink is live, a request is in flight,
or MSAL consent is needed — but a pending approval batch by itself does
not block chat (see `c3_counterexample`). -/
theorem c3_consent_and_inflight_block_chat (s : AppState) (input : String)
    (o : PostOutcome) :
    (s.oauthConsentLink.isSome = true → sendMessageUI s input o = (s, none)) ∧
    (s.chatLoading = true → sendMessageUI s input o = (s, none)) ∧
    (s.needsConsent = true → sendMessageUI s input o = (s, none)) := by
  refine ⟨?_, ?_, ?_⟩ <;> intro h <;>
    unfold sendMessageUI chatInputDisabled <;> simp [h]

/-- C3 (witness): the amended theorem applied to `sBoth`, whose consent
link is live. -/
theorem c3_witness :
    sendMessageUI sBoth "hello" (.failure "x") = (sBoth, none) :=
  (c3_consent_and_inflight_block_chat sBoth "hello" (.failure "x")).1 rfl

/-- Session holding an empty (zero-item) approval batch together with a
pending approval response id. -/
def c4_state : AppState :=
  { s0 with pendingApprovals := some []
            pendingResponseIdForApproval := some "resp-x" }

/-- Transport outcome used by the C4 counterexample. -/
def c4_outcome : PostOutcome :=
  .success { status := none, consent_link := none, response_id := some "r",
             approval_requests := none, output_text := some "ok" }

/-- C4 (counterexample): invoked with a zero-item pending batch,
`submitApprovals` does NOT send an empty approvals array — the guard
`!pendingApprovals?.length` fires and the call is a complete no-op,
posting nothing and leaving the state unchanged. -/
theorem c4_counterexample :
    c4_state.pendingApprovals = some [] ∧
    submitApprovals c4_state c4_outcome = (c4_state, none) :=
  ⟨rfl, rfl⟩

/-- C4 (amended): whenever the pending batch is absent or has zero items,
approval submission is a complete no-op: no request is sent and every
session field is unchanged. -/
theorem c4_empty_batch_send_suppressed (s : AppState) (o : PostOutcome)
    (h : s.pendingApprovals.getD [] = []) :
    submitApprovals s o = (s, none) := by
  unfold submitApprovals submitApprovalsStart
  simp [h]

/-- C4 (witness): the amended theorem applied to the initial session. -/
theorem c4_witness :
    submitApprovals s0 (.failure "e") = (s0, none) :=
  c4_empty_batch_send_suppressed s0 (.failure "e") rfl

/-- C5: every server response takes exactly one classification branch, in
priority order consent ≻ approvals ≻ final output; the theorem gives the
full session update of each branch under the corresponding (mutually
exclusive, jointly exhaustive) status conditions.  In particular the
consent-branch equation leaves `pendingApprovals` and `approvalDecisions`
at their prior values, so a response carrying both a consent status and an
approval batch is handled only as consent. -/
theorem c5_classification_priority (s : AppState) (data : ChatResponse) :
    (data.status = some "oauth_consent_required" →
      applyChatResponse s data = { s with
        oauthConsentLink := jsOrNull data.consent_link
        pendingResponseIdForOauth := jsOrNull data.response_id
        previousResponseId := jsOrNull data.response_id
        messages := s.messages ++ [⟨Role.assistant, consentInstructionText⟩] }) ∧
    (data.status ≠ some "oauth_consent_required" →
      data.status = some "approval_required" →
      applyChatResponse s data = { s with
        pendingApprovals := some (data.approval_requests.getD [])
        pendingResponseIdForApproval := jsOrNull data.response_id
        previousResponseId := jsOrNull data.response_id
        approvalDecisions :=
          (data.approval_requests.getD []).map (fun r => (r.id, false)) }) ∧
    (data.status ≠ some "oauth_consent_required" →
      data.status ≠ some "approval_required" →
      applyChatResponse s data = { s with
        messages := s.messages ++ [⟨Role.assistant, finalOutputText data⟩]
        previousResponseId := jsOrNull data.response_id
        pendingApprovals := none
        pendingResponseIdForApproval := none
        approvalDecisions := []
        oauthConsentLink := none
        pendingResponseIdForOauth := none }) := by
  refine ⟨?_, ?_, ?_⟩
  · intro h
    unfold applyChatResponse
    rw [if_pos h]
  · intro h1 h2
    unfold applyChatResponse
    rw [if_neg h1, if_pos h2]
  · intro h1 h2
    unfold applyChatResponse
    rw [if_neg h1, if_neg h2]

/-- Reply that carries BOTH a consent status and a non-empty approval
batch. -/
def c5_bothResp : ChatResponse :=
  { status := some "oauth_consent_required"
    consent_link := some "https://consent.example/x"
    response_id := some "resp-c"
    approval_requests := some [aprItem]
    output_text := none }

/-- C5 (witness): a response carrying both a consent indication and an
approval batch, applied to a session that already holds a pending batch,
is handled only as consent: the stored batch and decision map are left
untouched while the consent fields are set. -/
theorem c5_witness :
    applyChatResponse sAfterBatch c5_bothResp = { sAfterBatch with
      oauthConsentLink := some "https://consent.example/x"
      pendingResponseIdForOauth := some "resp-c"
      previousResponseId := some "resp-c"
      messages := sAfterBatch.messages ++
        [⟨Role.assistant, consentInstructionText⟩] } :=
  (c5_classification_priority sAfterBatch c5_bothResp).1 rfl

/-- C6: a response classified as final output always appends an assistant
message — `output_text` when non-empty, the fixed `"(no output_text)"`
placeholder when absent or empty — and clears the pending batch, the
decision map, the consent link and both pending response ids. -/
theorem c6_final_output_appended_and_cleared (s : AppState)
    (data : ChatResponse)
    (h1 : data.status ≠ some "oauth_consent_required")
    (h2 : data.status ≠ some "approval_required") :
    (applyChatResponse s data).messages =
      s.messages ++ [⟨Role.assistant, finalOutputText data⟩] ∧
    (data.output_text.getD "" = "" →
      finalOutputText data = "(no output_text)") ∧
    (data.output_text.getD "" ≠ "" →
      finalOutputText data = data.output_text.getD "") ∧
    (applyChatResponse s data).pendingApprovals = none ∧
    (applyChatResponse s data).approvalDecisions = [] ∧
    (applyChatResponse s data).oauthConsentLink = none ∧
    (applyChatResponse s data).pendingResponseIdForApproval = none ∧
    (applyChatResponse s data).pendingResponseIdForOauth = none := by
  unfold applyChatResponse
  rw [if_neg h1, if_neg h2]
  refine ⟨rfl, ?_, ?_, rfl, rfl, rfl, rfl, rfl⟩
  · intro h
    simp [finalOutputText, h]
  · intro h
    simp [finalOutputText, h]

/-- Final reply with no `output_text` at all. -/
def c6_resp : ChatResponse :=
  { status := none, consent_link := none, response_id := some "resp-f",
    approval_requests := none, output_text := none }

/-- C6 (witness): applying a final reply with no `output_text` to `sBoth`
(consent link live, batch pending) appends the placeholder assistant
message and clears every pending field. -/
theorem c6_witness :
    (applyChatResponse sBoth c6_resp).messages =
      sBoth.messages ++ [⟨Role.assistant, "(no output_text)"⟩] ∧
    (applyChatResponse sBoth c6_resp).pendingApprovals = none ∧
    (applyChatResponse sBoth c6_resp).oauthConsentLink = none := by
  have h := c6_final_output_appended_and_cleared sBoth c6_resp
    (by decide) (by decide)
  exact ⟨h.1, h.2.2.2.1, h.2.2.2.2.2.1⟩

/-- C7: when an approval batch arrives, the decision map is initialised
with every id of the batch defaulted to deny; a later submission posts
exactly one `{approval_request_id, approve}` entry per batch item,
including denied ones, and an id whose decision was never set is posted as
`approve := false`. -/
theorem c7_decisions_default_deny_full_submission (s : AppState)
    (data : ChatResponse) (batch : List ApprovalRequest) (o : PostOutcome) :
    (data.status = some "approval_required" →
      data.approval_requests = some batch →
      (applyChatResponse s data).approvalDecisions =
        batch.map (fun r => (r.id, false)) ∧
      (applyChatResponse s data).pendingApprovals = some batch) ∧
    (s.pendingApprovals = some batch → batch.isEmpty = false →
      jsTruthy s.pendingResponseIdForApproval = true → s.chatLoading = false →
      (submitApprovals s o).2 = some
        { agent_name := s.agentName
          message := none
          previous_response_id := s.pendingResponseIdForApproval
          action := none
          approvals := some (batch.map
            (fun r => ⟨r.id, decisionFor s.approvalDecisions r.id⟩)) }) ∧
    (∀ i, lookupDecision s.approvalDecisions i = none →
      decisionFor s.approvalDecisions i = false) := by
  refine ⟨?_, ?_, ?_⟩
  · intro h1 h2
    have hne : data.status ≠ some "oauth_consent_required" := by
      rw [h1]
      decide
    unfold applyChatResponse
    rw [if_neg hne, if_pos h1]
    rw [h2]
    exact ⟨rfl, rfl⟩
  · intro hp hbe hjt hcl
    unfold submitApprovals submitApprovalsStart
    simp [hp, hbe, hjt, hcl]
  · intro i h
    unfold decisionFor
    rw [h]
    rfl

/-- Session holding a two-item batch in which only `apr-1` was ever
decided (approved); `apr-2` was never set. -/
def c7_state : AppState :=
  { s0 with
    pendingApprovals := some [aprItem, aprItem2]
    approvalDecisions := [("apr-1", true)]
    pendingResponseIdForApproval := some "resp-a" }

/-- C7 (witness): submitting the two-item batch posts one entry per item —
`apr-1` approved, the never-decided `apr-2` defaulted to deny. -/
theorem c7_witness :
    (submitApprovals c7_state (.failure "x")).2 = some
      { agent_name := "MultiToolAgentV1"
        message := none
        previous_response_id := some "resp-a"
        action := none
        approvals := some [⟨"apr-1", true⟩, ⟨"apr-2", false⟩] } :=
  (c7_decisions_default_deny_full_submission c7_state approvalResp
    [aprItem, aprItem2] (.failure "x")).2.1 rfl rfl rfl rfl

/-- C8: when the post of a new user message fails (transport, application
or credential error) from an idle session, no assistant message is
appended, the error string is surfaced, loading reverts to idle, the user
message already appended stays in the transcript, and the chain token and
every pending approval/consent field are unchanged. -/
theorem c8_error_reverts_mode_preserves_state (s : AppState)
    (input err : String) (hload : s.chatLoading = false)
    (htext : jsTrim input ≠ "") :
    (sendMessage s input (.failure err)).1.messages =
      s.messages ++ [⟨Role.user, jsTrim input⟩] ∧
    (sendMessage s input (.failure err)).1.error =
      some (if err = "" then "Chat request failed" else err) ∧
    (sendMessage s input (.failure err)).1.chatLoading = false ∧
    (sendMessage s input (.failure err)).1.previousResponseId =
      s.previousResponseId ∧
    (sendMessage s input (.failure err)).1.pendingApprovals =
      s.pendingApprovals ∧
    (sendMessage s input (.failure err)).1.approvalDecisions =
      s.approvalDecisions ∧
    (sendMessage s input (.failure err)).1.pendingResponseIdForApproval =
      s.pendingResponseIdForApproval ∧
    (sendMessage s input (.failure err)).1.oauthConsentLink =
      s.oauthConsentLink ∧
    (sendMessage s input (.failure err)).1.pendingResponseIdForOauth =
      s.pendingResponseIdForOauth ∧
    (sendMessage s input (.failure err)).2 = some
      { agent_name := s.agentName
        message := some (jsTrim input)
        previous_response_id := s.previousResponseId
        action := none
        approvals := none } := by
  unfold sendMessage sendMessageStart finishTurn
  simp [htext, hload]

/-- C8 (witness): a failed send of "hi" from the fresh session keeps the
user message, surfaces the error, returns to idle and leaves the chain
token null. -/
theorem c8_witness :
    (sendMessage s0 "hi" (.failure "boom")).1.messages =
      [⟨Role.user, "hi"⟩] ∧
    (sendMessage s0 "hi" (.failure "boom")).1.error = some "boom" ∧
    (sendMessage s0 "hi" (.failure "boom")).1.chatLoading = false ∧
    (sendMessage s0 "hi" (.failure "boom")).1.previousResponseId = none := by
  have h := c8_error_reverts_mode_preserves_state s0 "hi" "boom" rfl
    (by decide)
  exact ⟨h.1, h.2.1, h.2.2.1, h.2.2.2.1⟩

/-- Session with a request in flight: "hi" was sent and no response has
arrived yet (`chatLoading = true`). -/
def c9_inflight : AppState := (sendMessageStart s0 "hi").1

/-- The late final-output reply to that in-flight request. -/
def c9_lateResp : ChatResponse :=
  { status := none, consent_link := none, response_id := some "resp-late",
    approval_requests := none, output_text := some "late answer" }

/-- The session after `resetChat` ran mid-flight and the late reply's
continuation then fired against the reset state. -/
def c9_afterLate : AppState :=
  finishTurn (resetChat c9_inflight) "Chat request failed"
    (.success c9_lateResp)

/-- C9 (counterexample): if `resetChat` is invoked while a request is in
flight, the late response is NOT discarded — its continuation runs against
the reset session and changes both the transcript (from `[]` to the late
assistant message) and the ChainToken (from `none` to the late response
id); there is no generation guard in the code. -/
theorem c9_counterexample :
    c9_inflight.chatLoading = true ∧
    (resetChat c9_inflight).messages = [] ∧
    (resetChat c9_inflight).previousResponseId = none ∧
    c9_afterLate.messages = [⟨Role.assistant, "late answer"⟩] ∧
    c9_afterLate.previousResponseId = some "resp-late" :=
  ⟨rfl, rfl, rfl, rfl, rfl⟩

/-- C9 (amended): the UI disables the `New chat` control while a request
is in flight, so the Session cannot be reset mid-flight through the UI;
if `resetChat` is nevertheless invoked directly while a request is in
flight, the late final-output response is applied to the reset Session and
appends to its (empty) transcript rather than being discarded. -/
theorem c9_reset_guarded_and_late_response_applied (s : AppState)
    (fallback : String) (data : ChatResponse) (hload : s.chatLoading = true)
    (h1 : data.status ≠ some "oauth_consent_required")
    (h2 : data.status ≠ some "approval_required") :
    resetChatUI s = s ∧
    (finishTurn (resetChat s) fallback (.success data)).messages =
      [⟨Role.assistant, finalOutputText data⟩] := by
  constructor
  · unfold resetChatUI
    rw [if_pos hload]
  · show (applyChatResponse (resetChat s) data).messages = _
    unfold applyChatResponse
    rw [if_neg h1, if_neg h2]
    rfl

/-- C9 (witness): the amended theorem at the concrete mid-flight session
and late reply. -/
theorem c9_witness :
    resetChatUI c9_inflight = c9_inflight ∧
    (finishTurn (resetChat c9_inflight) "Chat request failed"
      (.success c9_lateResp)).messages =
      [⟨Role.assistant, "late answer"⟩] := by
  have h := c9_reset_guarded_and_late_response_applied c9_inflight
    "Chat request failed" c9_lateResp rfl (by decide) (by decide)
  exact ⟨h.1, h.2⟩

/-- C10: submitting chat input that trims to empty, or submitting while a
request is in flight, is a complete no-op (state unchanged, nothing
posted); any other submission appends a user message carrying the trimmed
input and posts the trimmed input with the current chain token. -/
theorem c10_send_guard_noop_and_trimmed_send (s : AppState) (input : String)
    (o : PostOutcome) :
    (jsTrim input = "" → sendMessage s input o = (s, none)) ∧
    (s.chatLoading = true → sendMessage s input o = (s, none)) ∧
    (jsTrim input ≠ "" → s.chatLoading = false →
      (sendMessageStart s input).1.messages =
        s.messages ++ [⟨Role.user, jsTrim input⟩] ∧
      (sendMessage s input o).2 = some
        { agent_name := s.agentName
          message := some (jsTrim input)
          previous_response_id := s.previousResponseId
          action := none
          approvals := none }) := by
  refine ⟨?_, ?_, ?_⟩
  · intro h
    unfold sendMessage sendMessageStart
    simp [h]
  · intro h
    unfold sendMessage sendMessageStart
    simp [h]
  · intro h1 h2
    constructor
    · unfold sendMessageStart
      simp [h1, h2]
    · unfold sendMessage sendMessageStart
      simp [h1, h2]

/-- C10 (witness): whitespace-only input is a complete no-op, and the
input "  hello  " is appended and posted trimmed to "hello". -/
theorem c10_witness :
    sendMessage s0 "   " (.failure "x") = (s0, none) ∧
    (sendMessage s0 "  hello  " (.failure "x")).2 = some
      { agent_name := "MultiToolAgentV1"
        message := some "hello"
        previous_response_id := none
        action := none
        approvals := none } := by
  have h1 := (c10_send_guard_noop_and_trimmed_send s0 "   "
    (.failure "x")).1 (by decide)
  have h2 := ((c10_send_guard_noop_and_trimmed_send s0 "  hello  "
    (.failure "x")).2.2 (by decide) rfl).2
  exact ⟨h1, h2⟩

end FoundryChat
